import Mathlib

/-!
Verification development for the iron request-logging middleware
(`src/lib.rs`).  The renderer and middleware glue are embedded from the
source; the format compiler lives in the crate module `format`
(`src/format.rs`), which is not present in the repository snapshot, so it is
modelled from the specification, as are the external collaborators
(the `time` crate, iron's status type, Rust's `f64` display).
-/

set_option maxRecDepth 4000

/-- Variants of `format::FormatText` as imported on line 12 of `src/lib.rs`:
`Str, Method, URI, Status, ResponseTime, RemoteAddr, RequestTime`. -/
inductive FormatText where
  | Str (s : String)
  | Method
  | URI
  | Status
  | ResponseTime
  | RemoteAddr
  | RequestTime
deriving DecidableEq, Repr

/-- One unit of a compiled format; `src/lib.rs` line 74 reads `unit.text`,
and the spec (section 3) says a format unit is literal text or a field
placeholder, both covered by `FormatText`. -/
structure FormatUnit where
  text : FormatText
deriving DecidableEq, Repr

/-- The `Format` newtype around an ordered unit sequence
(destructured as `let Format(format) = ...` on line 57 of `src/lib.rs`). -/
structure Format where
  units : List FormatUnit
deriving DecidableEq, Repr

/-- Modelled from the spec: the compilation errors of the missing
`src/format.rs` (section 4.1 / 7): `UnterminatedPlaceholder` and
`UnknownFieldToken(token)`.  The opening-brace position payload of
`UnterminatedPlaceholder` is omitted; no claim depends on it. -/
inductive FormatError where
  | UnterminatedPlaceholder
  | UnknownFieldToken (token : String)
deriving DecidableEq, Repr

/-- Modelled from the spec: the closed, case-sensitive token table of the
missing `src/format.rs` (section 4.1 step 3). -/
def lookupToken (t : String) : Option FormatText :=
  if t = "method" then some FormatText.Method
  else if t = "uri" then some FormatText.URI
  else if t = "status" then some FormatText.Status
  else if t = "response-time" then some FormatText.ResponseTime
  else if t = "remote-addr" then some FormatText.RemoteAddr
  else if t = "request-time" then some FormatText.RequestTime
  else none

/-- Modelled from the spec: flushing the accumulated literal buffer
(section 4.1 steps 2 and 5; an empty buffer is skipped). -/
def flushLit (lit : List Char) (units : List FormatUnit) : List FormatUnit :=
  if lit.isEmpty then units else FormatUnit.mk (FormatText.Str (String.mk lit)) :: units

/-- Modelled from the spec: the single left-to-right scan of the missing
`src/format.rs` compiler (section 4.1).  `inTok = false` is literal mode
with `buf` the literal buffer; `inTok = true` scans a `{...}` placeholder
with `buf` the token collected so far.  Reaching end-of-input inside a
placeholder is `UnterminatedPlaceholder`; an unrecognized token is
`UnknownFieldToken`. -/
def parseGo : Bool → List Char → List Char → Except FormatError (List FormatUnit)
  | false, lit, [] => Except.ok (flushLit lit [])
  | false, lit, '{' :: rest => (parseGo true [] rest).map (flushLit lit)
  | false, lit, c :: rest => parseGo false (lit ++ [c]) rest
  | true, _, [] => Except.error FormatError.UnterminatedPlaceholder
  | true, tok, '}' :: rest =>
      match lookupToken (String.mk tok) with
      | some ft => (parseGo false [] rest).map (fun us => FormatUnit.mk ft :: us)
      | none => Except.error (FormatError.UnknownFieldToken (String.mk tok))
  | true, tok, c :: rest => parseGo true (tok ++ [c]) rest

/-- Modelled from the spec: `compile(template) -> Result<Format, FormatError>`
of the missing `src/format.rs` (section 4.1). -/
def parse (s : String) : Except FormatError Format :=
  (parseGo false [] s.data).map Format.mk

/-- The default template literal documented on line 26 of `src/lib.rs`. -/
def defaultTemplate : String := "{method} {uri} -> {status} ({response-time} ms)"

/-- Modelled from the spec: the `Default` impl for `Format` in the missing
`src/format.rs` — the fixed constant unit sequence of the default template
`{method} {uri} -> {status} ({response-time} ms)` documented on line 26 of
`src/lib.rs` (spec sections 3 and 8). -/
def defaultFormat : Format :=
  Format.mk
    [ FormatUnit.mk FormatText.Method
    , FormatUnit.mk (FormatText.Str " ")
    , FormatUnit.mk FormatText.URI
    , FormatUnit.mk (FormatText.Str " -> ")
    , FormatUnit.mk FormatText.Status
    , FormatUnit.mk (FormatText.Str " (")
    , FormatUnit.mk FormatText.ResponseTime
    , FormatUnit.mk (FormatText.Str " ms)")
    ]

/-- Modelled from the spec: iron's response status value, an external
collaborator; its Rust `Display` ("formatted status representation",
spec section 4.2) is `code` then the canonical reason phrase. -/
structure Status where
  code : Nat
  reason : String
deriving DecidableEq, Repr

/-- Modelled from the spec: `format!("{}", status)` for iron's status
(external `Display` impl). -/
def Status.display (s : Status) : String :=
  toString s.code ++ " " ++ s.reason

/-- Modelled from the spec: the fields of `time::Tm` (external `time` crate)
that the format pattern `%Y-%m-%dT%H:%M:%S.%fZ%z` on line 70 of
`src/lib.rs` consumes.  `mon` is the printed (1-based) month; `utcoff` is
the UTC offset in seconds carried by the timestamp. -/
structure Tm where
  year : Nat
  mon : Nat
  mday : Nat
  hour : Nat
  min : Nat
  sec : Nat
  nsec : Nat
  utcoff : Int
deriving DecidableEq, Repr

/-- Modelled from the spec: the elapsed `time::Duration` (external `time`
crate) as read on line 56 of `src/lib.rs`: `num_seconds()` is the whole
seconds, and `num_nanoseconds()` the sub-second nanosecond component,
`none` when unavailable (spec section 4.2: "this conversion must tolerate
a missing sub-second component by treating it as zero"). -/
structure Duration where
  num_seconds : Int
  num_nanoseconds : Option Int
deriving DecidableEq, Repr

/-- Line 56 of `src/lib.rs`: whole seconds times 1000 plus sub-second
nanoseconds over 1000000, a missing sub-second component
(`unwrap_or(0)`) treated as zero.  The `f64` arithmetic is modelled over
the exact rationals; both claims exercised here are exact in `f64`. -/
def response_time_ms (d : Duration) : ℚ :=
  (d.num_seconds : ℚ) * 1000 + ((d.num_nanoseconds.getD 0 : Int) : ℚ) / 1000000

/-- Fixed-width zero-padded decimal digits of `n`, most significant first
(the shape printf-style `%0wd` padding produces for `n < 10 ^ w`). -/
def fixedDigits (w n : Nat) : String :=
  String.mk ((List.range w).map (fun i => Nat.digitChar (n / 10 ^ (w - 1 - i) % 10)))

/-- Drop trailing `0` characters (Rust's float display never prints
trailing fractional zeros). -/
def stripTrailingZeros (l : List Char) : List Char :=
  (l.reverse.dropWhile (fun c => c = '0')).reverse

/-- Modelled from the spec: Rust's `{}` display of an `f64` (external),
for values whose reduced denominator divides 10^6 — every value
`response_time_ms` produces: integer part, then the non-zero fractional
digits with trailing zeros stripped, the decimal point omitted when the
fraction is zero.  Computed on the reduced numerator and denominator of
the rational. -/
def fmtF64 (q : ℚ) : String :=
  let n : Nat := q.num.natAbs
  let d : Nat := q.den
  let ip : Nat := n / d
  let frac : Nat := n % d * 1000000 / d
  let fracDigits := stripTrailingZeros (fixedDigits 6 frac).data
  (if q.num < 0 then "-" else "")
    ++ toString ip
    ++ (if fracDigits.isEmpty then "" else "." ++ String.mk fracDigits)

/-- Modelled from the spec: the `%z` directive of the external `time`
crate's `strftime` — the numeric UTC offset as sign then `HHMM`. -/
def offsetString (off : Int) : String :=
  (if off < 0 then "-" else "+")
    ++ fixedDigits 2 (off.natAbs / 3600)
    ++ fixedDigits 2 (off.natAbs % 3600 / 60)

/-- Modelled from the spec: the date half `%Y-%m-%d` of the pattern. -/
def dateDigits (t : Tm) : String :=
  fixedDigits 4 t.year ++ "-" ++ fixedDigits 2 t.mon ++ "-" ++ fixedDigits 2 t.mday

/-- Modelled from the spec: the time-of-day half `%H:%M:%S` of the pattern. -/
def timeDigits (t : Tm) : String :=
  fixedDigits 2 t.hour ++ ":" ++ fixedDigits 2 t.min ++ ":" ++ fixedDigits 2 t.sec

/-- Modelled from the spec: the external `time` crate's
`strftime("%Y-%m-%dT%H:%M:%S.%fZ%z")` called on line 70 of `src/lib.rs`,
per the spec's stated contract (sections 3 and 9): the pattern
`YYYY-MM-DDTHH:MM:SS.ffffffZ+-HHMM`, microsecond precision with exactly
six fractional digits, then a literal `Z`, then the numeric offset the
timestamp itself carries. -/
def strftimeRequestTime (t : Tm) : String :=
  dateDigits t ++ "T" ++ timeDigits t ++ "." ++ fixedDigits 6 (t.nsec / 1000)
    ++ "Z" ++ offsetString t.utcoff

/-- The per-request snapshot the render closure on lines 60-72 of
`src/lib.rs` reads: `req.method`, `req.url`, `req.remote_addr` (their
Rust `Display` output), `res.status`, the recorded `entry_time`, and the
elapsed duration (spec section 3, RenderContext). -/
structure RenderContext where
  method : String
  url : String
  remote_addr : String
  status : Option Status
  entry_time : Tm
  elapsed : Duration
deriving Repr

/-- The render closure, lines 60-72 of `src/lib.rs`: one arm per
`FormatText` variant. -/
def renderUnit (ctx : RenderContext) : FormatText → String
  | FormatText.Str s => s
  | FormatText.Method => ctx.method
  | FormatText.URI => ctx.url
  | FormatText.Status => (ctx.status.map Status.display).getD "<missing status code>"
  | FormatText.ResponseTime => fmtF64 (response_time_ms ctx.elapsed) ++ " ms"
  | FormatText.RemoteAddr => ctx.remote_addr
  | FormatText.RequestTime => strftimeRequestTime ctx.entry_time

/-- Rust's `[String]::join(sep)`: the elements interleaved with `sep`. -/
def joinSep (sep : String) : List String → String
  | [] => ""
  | [s] => s
  | s :: rest => s ++ sep ++ joinSep sep rest

/-- Line 74 of `src/lib.rs`: map `render` over the unit sequence in order
and `join("")` the pieces. -/
def logLine (f : Format) (ctx : RenderContext) : String :=
  joinSep "" (f.units.map (fun u => renderUnit ctx u.text))

/-- Compile a template and, on success, render it against a context
(the compile-then-render pipeline of spec section 8). -/
def compileRender (template : String) (ctx : RenderContext) : Option String :=
  (parse template).toOption.map (fun f => logLine f ctx)

/-- The request fields `src/lib.rs` reads: `method`, `url`, `remote_addr`
(as their `Display` output) and the `StartTime` extension slot
(lines 44-45, 49, 53), `none` until `initialise` records it. -/
structure Request where
  method : String
  url : String
  remote_addr : String
  extensions : Option Tm
deriving Repr

/-- The response field `src/lib.rs` reads: the optional status (line 65). -/
structure Response where
  status : Option Status
deriving Repr

/-- An `IronError`: its attached `response` (read on line 101 of
`src/lib.rs`) plus an opaque payload standing for the boxed error value. -/
structure IronError where
  response : Response
  payload : String
deriving Repr

/-- Assemble the `RenderContext` the render closure captures in
`Logger::log` (lines 52-72 of `src/lib.rs`). -/
def mkCtx (entry_time : Tm) (elapsed : Duration) (req : Request) (res : Response) :
    RenderContext :=
  RenderContext.mk req.method req.url req.remote_addr res.status entry_time elapsed

/-- The `Logger` middleware struct, line 18-20 of `src/lib.rs`. -/
structure Logger where
  format : Option Format
deriving Repr

/-- Lines 39-41 of `src/lib.rs`: `Logger::new` clones the optional format
into a before-half and an after-half (`clone` on a value is the value). -/
def Logger.new (format : Option Format) : Logger × Logger :=
  (Logger.mk format, Logger.mk format)

/-- Lines 48-50 of `src/lib.rs`: record `time::now()` into the request's
`StartTime` extension; `now` is the clock value the external call returns. -/
def Logger.initialise (now : Tm) (req : Request) : Request :=
  { req with extensions := some now }

/-- Lines 52-79 of `src/lib.rs`: `Logger::log`.  `none` models the
`unwrap()` panic on line 53 when no start time was recorded; otherwise the
line handed to `info!` on line 75.  The elapsed duration
(`time::now() - entry_time`, external calendar arithmetic) is passed in
explicitly. -/
def Logger.log (lg : Logger) (elapsed : Duration) (req : Request) (res : Response) :
    Option String :=
  req.extensions.map
    (fun entry_time => logLine (lg.format.getD defaultFormat) (mkCtx entry_time elapsed req res))

/-- Lines 83-86 of `src/lib.rs`: `BeforeMiddleware::before` records the
start time and returns `Ok(())`. -/
def Logger.before (_lg : Logger) (now : Tm) (req : Request) :
    Request × Except IronError Unit :=
  (Logger.initialise now req, Except.ok ())

/-- Lines 88-91 of `src/lib.rs`: `BeforeMiddleware::catch` records the
start time and returns `Err(err)` with the error untouched. -/
def Logger.beforeCatch (_lg : Logger) (now : Tm) (req : Request) (err : IronError) :
    Request × Except IronError Unit :=
  (Logger.initialise now req, Except.error err)

/-- Lines 95-98 of `src/lib.rs`: `AfterMiddleware::after` logs against the
response and returns `Ok(res)`; `none` models the propagated panic. -/
def Logger.after (lg : Logger) (elapsed : Duration) (req : Request) (res : Response) :
    Option (String × Except IronError Response) :=
  (Logger.log lg elapsed req res).map (fun line => (line, Except.ok res))

/-- Lines 100-103 of `src/lib.rs`: `AfterMiddleware::catch` logs against
the error's response and returns `Err(err)` with the error untouched;
`none` models the propagated panic. -/
def Logger.afterCatch (lg : Logger) (elapsed : Duration) (req : Request) (err : IronError) :
    Option (String × Except IronError Response) :=
  (Logger.log lg elapsed req err.response).map (fun line => (line, Except.error err))

/-! Theorems for the specification claims. -/

/-- Auxiliary: joining with the empty separator is plain concatenation in
list order. -/
theorem joinSep_empty_concat (l : List String) :
    joinSep "" l = l.foldr (fun a b => a ++ b) "" := by
  induction l with
  | nil => rfl
  | cons s rest ih =>
    cases rest with
    | nil => simp [joinSep]
    | cons b bs =>
      simp only [joinSep, List.foldr] at *
      rw [ih]
      simp

/-- C1: for every compiled Format and every RenderContext, the rendered
output is the concatenation, in unit order, of the per-unit renderings,
with no separators inserted, and a `Str` (literal) unit contributes its
string verbatim. -/
theorem render_is_ordered_concatenation (f : Format) (ctx : RenderContext) :
    logLine f ctx
      = (f.units.map (fun u => renderUnit ctx u.text)).foldr (fun a b => a ++ b) ""
    ∧ ∀ s : String, renderUnit ctx (FormatText.Str s) = s := by
  refine ⟨?_, fun s => rfl⟩
  unfold logLine
  exact joinSep_empty_concat _

/-- Concrete context whose elapsed time is 2 whole seconds plus a
500000000-nanosecond sub-second component. -/
def ctx2500 : RenderContext :=
  RenderContext.mk "GET" "http://localhost:3000/" "127.0.0.1:50242"
    (some (Status.mk 200 "OK")) (Tm.mk 2016 1 2 3 4 5 0 0)
    (Duration.mk 2 (some 500000000))

/-- C2: the ResponseTimeMs value is whole seconds times 1000 plus
sub-second nanoseconds over 1000000 in one (exact-rational-modelled)
floating-point value, a missing sub-second component treated as zero, and
a context with elapsed time 2 s + 500000000 ns renders the response-time
placeholder as `2500 ms`. -/
theorem response_time_ms_formula :
    (∀ s : Int, response_time_ms (Duration.mk s none) = response_time_ms (Duration.mk s (some 0)))
    ∧ (∀ s n : Int,
        response_time_ms (Duration.mk s (some n)) = (s : ℚ) * 1000 + (n : ℚ) / 1000000)
    ∧ renderUnit ctx2500 FormatText.ResponseTime = "2500 ms" := by
  refine ⟨fun s => rfl, fun s n => rfl, ?_⟩
  show fmtF64 (response_time_ms (Duration.mk 2 (some 500000000))) ++ " ms" = "2500 ms"
  have h : response_time_ms (Duration.mk 2 (some 500000000)) = 2500 := by
    unfold response_time_ms
    norm_num
  rw [h]
  decide

/-- Auxiliary: `fixedDigits` always produces exactly its requested width. -/
theorem fixedDigits_length (w n : Nat) : (fixedDigits w n).length = w := by
  simp [fixedDigits, String.length]

/-- C3: rendering a RequestTime placeholder yields the request-start
timestamp in the fixed pattern `YYYY-MM-DDTHH:MM:SS.ffffffZ+-HHMM`:
date, `T`, time of day, a fractional part of exactly six digits
(microsecond precision), a literal `Z`, and the numeric offset the
original timestamp carries. -/
theorem request_time_pattern (ctx : RenderContext) :
    renderUnit ctx FormatText.RequestTime = strftimeRequestTime ctx.entry_time
    ∧ ∃ frac : String,
        strftimeRequestTime ctx.entry_time
          = dateDigits ctx.entry_time ++ "T" ++ timeDigits ctx.entry_time ++ "." ++ frac
              ++ "Z" ++ offsetString ctx.entry_time.utcoff
        ∧ frac.length = 6 := by
  exact ⟨rfl, fixedDigits 6 (ctx.entry_time.nsec / 1000), rfl, fixedDigits_length 6 _⟩

/-- C4: rendering is total — `Logger::log` succeeds exactly when a start
time was recorded (the `unwrap` on the start-time extension being the only
admitted, caller-level failure), for every format and every context,
including one with every optional field absent. -/
theorem rendering_total (lg : Logger) (elapsed : Duration) (req : Request) (res : Response) :
    ((lg.log elapsed req res).isSome = req.extensions.isSome)
    ∧ lg.log elapsed { req with extensions := none } res = none
    ∧ ∀ t : Tm, (lg.log elapsed { req with extensions := some t } res).isSome = true := by
  refine ⟨?_, rfl, fun t => rfl⟩
  cases h : req.extensions <;> simp [Logger.log, h]

/-- C5 counterexample: the section-3 spelling of the default template uses
the token `response-time-ms`, which the compiler rejects as an unknown
field token, so compiling it does not yield the Default Format. -/
theorem default_template_section3_spelling_rejected :
    parse "{method} {uri} -> {status} ({response-time-ms} ms)"
      = Except.error (FormatError.UnknownFieldToken "response-time-ms")
    ∧ parse "{method} {uri} -> {status} ({response-time-ms} ms)"
      ≠ Except.ok defaultFormat := by
  refine ⟨rfl, fun h => ?_⟩
  exact Except.noConfusion h

/-- C5 amended: the Default Format equals the result of compiling the
default template `{method} {uri} -> {status} ({response-time} ms)` (the
lib.rs / section-8 spelling), and the None-fallback selects exactly the
Default Format. -/
theorem default_format_is_compiled_default_template :
    parse defaultTemplate = Except.ok defaultFormat
    ∧ (none : Option Format).getD defaultFormat = defaultFormat
    ∧ ∀ (elapsed : Duration) (req : Request) (res : Response),
        (Logger.mk none).log elapsed req res
          = req.extensions.map (fun t => logLine defaultFormat (mkCtx t elapsed req res)) :=
  ⟨rfl, rfl, fun _ _ _ => rfl⟩

/-- C6: when the context's status is absent, rendering a Status
placeholder yields exactly the sentinel `<missing status code>`; when it
is present, it yields the formatted status representation. -/
theorem status_sentinel (ctx : RenderContext) :
    (ctx.status = none → renderUnit ctx FormatText.Status = "<missing status code>")
    ∧ ∀ st : Status, ctx.status = some st →
        renderUnit ctx FormatText.Status = Status.display st := by
  constructor
  · intro h
    simp [renderUnit, h]
  · intro st h
    simp [renderUnit, h]

/-- A timestamp used by the concrete witnesses. -/
def tmW : Tm := Tm.mk 2016 1 2 3 4 5 123456789 3600

/-- A context with no status set. -/
def ctxNoStatus : RenderContext :=
  RenderContext.mk "GET" "http://localhost:3000/" "127.0.0.1:50242" none tmW
    (Duration.mk 0 (some 0))

/-- A context with a 200 OK status. -/
def ctxOkStatus : RenderContext :=
  RenderContext.mk "GET" "http://localhost:3000/" "127.0.0.1:50242"
    (some (Status.mk 200 "OK")) tmW (Duration.mk 0 (some 0))

/-- Witness for C6 at concrete contexts with and without a status. -/
theorem status_sentinel_witness :
    ctxNoStatus.status = none
    ∧ renderUnit ctxNoStatus FormatText.Status = "<missing status code>"
    ∧ ctxOkStatus.status = some (Status.mk 200 "OK")
    ∧ renderUnit ctxOkStatus FormatText.Status = Status.display (Status.mk 200 "OK") :=
  ⟨rfl, (status_sentinel ctxNoStatus).1 rfl, rfl,
    (status_sentinel ctxOkStatus).2 (Status.mk 200 "OK") rfl⟩

/-- C7: the empty template is legal: it compiles to the empty unit
sequence, and rendering the empty Format with any RenderContext yields
the empty string. -/
theorem empty_template_legal :
    parse "" = Except.ok (Format.mk [])
    ∧ ∀ ctx : RenderContext, logLine (Format.mk []) ctx = "" :=
  ⟨rfl, fun _ => rfl⟩

/-- C8: compile-then-render is deterministic: for a fixed template and a
fixed context, any two successful runs produce the same output string. -/
theorem compile_render_deterministic (t : String) (ctx : RenderContext) (o₁ o₂ : String)
    (h₁ : compileRender t ctx = some o₁) (h₂ : compileRender t ctx = some o₂) : o₁ = o₂ := by
  rw [h₁] at h₂
  exact Option.some.inj h₂

/-- A context whose method displays as `GET`, for the spec's
`X{method}Y` example. -/
def ctxMethodGET : RenderContext :=
  RenderContext.mk "GET" "http://localhost:3000/" "127.0.0.1:50242" none tmW
    (Duration.mk 0 (some 0))

/-- Witness for C8 on the template `X{method}Y` and a concrete context. -/
theorem compile_render_deterministic_witness :
    compileRender "X{method}Y" ctxMethodGET = some "XGETY"
    ∧ "XGETY" = "XGETY" :=
  ⟨rfl, compile_render_deterministic "X{method}Y" ctxMethodGET "XGETY" "XGETY" rfl rfl⟩

/-- C9: `Logger::new` returns a pair of Loggers whose stored format
fields are equal, for every argument (Some format or None). -/
theorem new_pair_shares_format (f : Option Format) :
    (Logger.new f).1.format = (Logger.new f).2.format := rfl

/-- C10: both error-catch paths preserve the error while doing their
work: the before-middleware catch records the start time and returns the
original error unchanged, and the after-middleware catch emits the log
line rendered from the error's own response and returns the original
error unchanged. -/
theorem catch_paths_preserve_error (lg : Logger) (now : Tm) (elapsed : Duration)
    (req : Request) (err : IronError) (t : Tm) (h : req.extensions = some t) :
    (lg.beforeCatch now req err).1.extensions = some now
    ∧ (lg.beforeCatch now req err).2 = Except.error err
    ∧ lg.afterCatch elapsed req err
        = some (logLine (lg.format.getD defaultFormat) (mkCtx t elapsed req err.response),
            Except.error err) := by
  refine ⟨rfl, rfl, ?_⟩
  simp [Logger.afterCatch, Logger.log, h]

/-- A request carrying a recorded start time, for the C10 witness. -/
def reqW : Request := Request.mk "GET" "http://localhost:3000/" "127.0.0.1:50242" (some tmW)

/-- An error carrying a 500 response, for the C10 witness. -/
def errW : IronError :=
  IronError.mk (Response.mk (some (Status.mk 500 "Internal Server Error"))) "boom"

/-- A logger with no explicit format, for the C10 witness. -/
def lgW : Logger := Logger.mk none

/-- An elapsed duration of 401 microseconds, for the C10 witness. -/
def durW : Duration := Duration.mk 0 (some 401000)

/-- Witness for C10 at a concrete logger, request, error and clock. -/
theorem catch_paths_preserve_error_witness :
    reqW.extensions = some tmW
    ∧ ((lgW.beforeCatch tmW reqW errW).1.extensions = some tmW
      ∧ (lgW.beforeCatch tmW reqW errW).2 = Except.error errW
      ∧ lgW.afterCatch durW reqW errW
          = some (logLine (lgW.format.getD defaultFormat) (mkCtx tmW durW reqW errW.response),
              Except.error errW)) :=
  ⟨rfl, catch_paths_preserve_error lgW tmW durW reqW errW tmW rfl⟩
